import Mathlib

/-!
Shallow embedding of the Maritime_AI backend (server.js) chat logic:
the geocoder/marine/land service boundary, the marine probe `tryMarine`,
the resolver `getMarineWeatherNear`, the haversine distance
`greatCircleNm`, and the `POST /chat` handler flows.

JavaScript numbers carrying coordinates and readings are modelled as
exact rationals (all offsets 0.25/0.5/0.75/1 are dyadic, hence exact);
the real-valued trigonometric distance computation is modelled over ℝ.
A value that JavaScript would represent as `undefined`/`null` is an
`Option`; a promise rejection (thrown exception) is `Except.error`.
-/

/-- A JavaScript exception thrown by a network call or a JSON parse. -/
structure JsErr where
  msg : String
deriving DecidableEq

/-- Result of `geocodePlace`: name, country, latitude, longitude. -/
structure Place where
  name : String
  country : String
  lat : ℚ
  lon : ℚ
deriving DecidableEq

/-- The object `tryMarine` returns on success (server.js lines 192–199). -/
structure MarineReading where
  time : String
  wave : Option ℚ
  wind : Option ℚ
  waveDir : Option ℚ
  usedLat : ℚ
  usedLon : ℚ
deriving DecidableEq

/-- The `current_weather` object returned by the land forecast service. -/
structure LandReading where
  temperature : ℚ
  windspeed : ℚ
  winddirection : ℚ
  time : String
deriving DecidableEq

/-- The parsed `hourly` object of a marine-service response; each field
may be absent (`undefined` in JS) and each series slot may be `null`. -/
structure MarineHourly where
  time : Option (List String)
  wave_height : Option (List (Option ℚ))
  wind_speed : Option (List (Option ℚ))
  wind_wave_direction : Option (List (Option ℚ))
deriving DecidableEq

/-- The parsed JSON body of a marine-service response (`data?.hourly`). -/
structure MarineBody where
  hourly : Option MarineHourly
deriving DecidableEq

/-- One behaviour of `fetch` + body parsing for the marine service:
the fetch promise may reject, or yield a response with an `ok` flag
whose `.json()` either parses or throws. -/
inductive FetchOutcome where
  | throw (e : JsErr)
  | resp (ok : Bool) (body : Except JsErr MarineBody)

/-- Model of `h.xs?.[0] ?? null`: absent field, empty series or a null
first slot all collapse to null. -/
def firstOrNull (o : Option (List (Option ℚ))) : Option ℚ :=
  (o.bind List.head?).join

/-- Embedding of `tryMarine(lat, lon)` (server.js lines 178–200), as a
function of the marine service behaviour at this coordinate.
The code returns null when the response is not ok or the hourly series
is missing/empty; it has no try/catch, so a rejected fetch or a failing
`r.json()` propagates as `Except.error`.  In the not-ok branch the body
is never parsed (`r.text().catch(() => "")` swallows its own errors). -/
def tryMarine (beh : FetchOutcome) (lat lon : ℚ) : Except JsErr (Option MarineReading) :=
  match beh with
  | .throw e => .error e
  | .resp ok body =>
    if !ok then .ok none
    else
      match body with
      | .error e => .error e
      | .ok data =>
        match data.hourly with
        | none => .ok none
        | some h =>
          match h.time with
          | none => .ok none
          | some [] => .ok none
          | some (t :: _) =>
            .ok (some { time := t
                        wave := firstOrNull h.wave_height
                        wind := firstOrNull h.wind_speed
                        waveDir := firstOrNull h.wind_wave_direction
                        usedLat := lat
                        usedLon := lon })

/-- The offset list of `getMarineWeatherNear` (server.js line 205). -/
def offsets : List ℚ := [0, 1/4, -1/4, 1/2, -1/2, 3/4, -3/4, 1, -1]

/-- The 81 candidate coordinates in the exact order the nested loops
visit them: latitude offset outer, longitude offset inner. -/
def candidates (lat lon : ℚ) : List (ℚ × ℚ) :=
  offsets.flatMap fun dlat => offsets.map fun dlon => (lat + dlat, lon + dlon)

/-- The sequential probe loop of `getMarineWeatherNear`: probe each
candidate in order; stop at the first non-null reading; a thrown probe
aborts the loop and propagates.  The first component records which
candidates were actually probed, in order. -/
def probeLoop (probe : ℚ → ℚ → Except JsErr (Option MarineReading)) :
    List (ℚ × ℚ) → List (ℚ × ℚ) × Except JsErr (Option MarineReading)
  | [] => ([], .ok none)
  | c :: rest =>
    match probe c.1 c.2 with
    | .error e => ([c], .error e)
    | .ok (some r) => ([c], .ok (some r))
    | .ok none =>
      let t := probeLoop probe rest
      (c :: t.1, t.2)

/-- Embedding of `getMarineWeatherNear(lat, lon)` (server.js lines
202–213), parametrised by the probe (the `tryMarine` binding applied to
the marine service's behaviour at each coordinate). -/
def getMarineWeatherNear (probe : ℚ → ℚ → Except JsErr (Option MarineReading))
    (lat lon : ℚ) : List (ℚ × ℚ) × Except JsErr (Option MarineReading) :=
  probeLoop probe (candidates lat lon)

/-- A probe that never throws, for stating resolver properties over
pure probe behaviours. -/
def liftProbe (probe : ℚ → ℚ → Option MarineReading) :
    ℚ → ℚ → Except JsErr (Option MarineReading) :=
  fun la lo => .ok (probe la lo)

/-! ## Number and reply rendering

JavaScript interpolates numbers into reply strings (`${marine.wave}`,
`.toFixed(2)`, `.toFixed(3)`).  The exact digit syntax is irrelevant to
every claim; rendering is modelled by an exact decimal/rational writer
whose output consists of digits and the characters `-`, `/` only. -/

/-- One decimal digit character. -/
def decDigit (n : Nat) : Char :=
  match n with
  | 0 => '0' | 1 => '1' | 2 => '2' | 3 => '3' | 4 => '4'
  | 5 => '5' | 6 => '6' | 7 => '7' | 8 => '8' | _ => '9'

/-- Decimal digit list of a natural number, most significant first. -/
def natToDigits (n : Nat) : List Char :=
  if h : n < 10 then [decDigit n]
  else natToDigits (n / 10) ++ [decDigit (n % 10)]
decreasing_by exact Nat.div_lt_self (by omega) (by omega)

/-- Decimal rendering of a natural number. -/
def natStr (n : Nat) : String := ⟨natToDigits n⟩

/-- Decimal rendering of an integer. -/
def intStr (i : ℤ) : String :=
  if i < 0 then "-" ++ natStr i.natAbs else natStr i.natAbs

/-- Rendering of a rational number (models JS number printing). -/
def ratStr (q : ℚ) : String :=
  if q.den = 1 then intStr q.num else intStr q.num ++ "/" ++ natStr q.den

/-- Model of `x.toFixed(2)`: round to two decimal places and render. -/
def toFixed2 (q : ℚ) : String := ratStr (((round (q * 100) : ℤ) : ℚ) / 100)

/-- Model of `x.toFixed(3)`: round to three decimal places and render. -/
def toFixed3 (q : ℚ) : String := ratStr (((round (q * 1000) : ℤ) : ℚ) / 1000)

/-! ## Reply formatting (server.js lines 245–266, 282–332) -/

/-- The storm-warning line appended to a marine reply (server.js line 293). -/
def stormLine : String := "\n⚠️ Storm warning: High waves expected!"

/-- The storm condition `typeof marine.wave === "number" && marine.wave > 3`. -/
def stormCond (m : MarineReading) : Bool :=
  match m.wave with
  | some w => decide (3 < w)
  | none => false

/-- The marine reply before the optional storm alert (server.js lines
295–309): header, time, wave/wind/direction with `n/a` for null, grid. -/
def marineReplyBody (p : Place) (m : MarineReading) : String :=
  "🌊 Marine Weather for **" ++ p.name ++ ", " ++ p.country ++ "**\n" ++
  "At " ++ m.time ++ " (local):\n" ++
  "• Wave height: " ++
    (match m.wave with
     | some w => ratStr w ++ " m"
     | none => "n/a") ++ "\n" ++
  "• Wind speed: " ++
    (match m.wind with
     | some w => ratStr w ++ " m/s"
     | none => "n/a") ++ "\n" ++
  "• Wave direction: " ++
    (match m.waveDir with
     | some d => ratStr d ++ "°"
     | none => "n/a") ++ "\n" ++
  "• Grid used: (" ++ toFixed2 m.usedLat ++ ", " ++ toFixed2 m.usedLon ++ ")"

/-- The full marine reply: body plus the storm alert when `wave > 3`,
else the empty alert (server.js lines 290–310). -/
def formatMarineReply (p : Place) (m : MarineReading) : String :=
  marineReplyBody p m ++ (if stormCond m then stormLine else "")

/-- The land-fallback reply (server.js lines 318–324). -/
def formatLandReply (p : Place) (l : LandReading) : String :=
  "🌍 Weather for **" ++ p.name ++ ", " ++ p.country ++ "** (land fallback)\n" ++
  "• Temperature: " ++ ratStr l.temperature ++ " °C\n" ++
  "• Windspeed: " ++ ratStr l.windspeed ++ " km/h\n" ++
  "• Wind direction: " ++ ratStr l.winddirection ++ "°\n" ++
  "• Time: " ++ l.time ++ "\n" ++
  "• Note: Marine grid not available right at this point; moved to land weather."

/-- `occursIn pat s` states that `pat` appears contiguously inside `s`
(the substring relation used to read "the reply contains the line"). -/
def occursIn (pat s : String) : Prop :=
  ∃ l r, s.data = l ++ pat.data ++ r

/-- A string free of the warning sign `⚠` that opens the storm line. -/
def warnFree (s : String) : Prop := '⚠' ∉ s.data

/-! ## The external-service environment and the `/chat` flows -/

/-- One behaviour of the three external services during a request:
the geocoder and land service are modelled by their observable outcome
(throw, null, or a value); the marine service by its per-coordinate
HTTP behaviour, which `tryMarine` interprets. -/
structure Env where
  geocode : String → Except JsErr (Option Place)
  marineHttp : ℚ → ℚ → FetchOutcome
  land : ℚ → ℚ → Except JsErr (Option LandReading)

/-- The probe the resolver uses under environment `env`: `tryMarine`
applied to the marine service behaviour at the probed coordinate. -/
def probeOf (env : Env) (la lo : ℚ) : Except JsErr (Option MarineReading) :=
  tryMarine (env.marineHttp la lo) la lo

/-- An external call issued while handling a chat message. -/
inductive ServiceCall where
  | geo (name : String)
  | marine (lat lon : ℚ)
  | land (lat lon : ℚ)
deriving DecidableEq

/-- Structured outcome of the weather flow, from which the reply string
is rendered. -/
inductive WOut where
  | geocodeFail (placeName : String)
  | marineReply (p : Place) (m : MarineReading)
  | landReply (p : Place) (l : LandReading)
  | allFail
deriving DecidableEq

/-- The land-fallback tail of the weather flow (server.js lines 316–327):
call `getLandWeather(place.lat, place.lon)` and classify the outcome.
`pre` is the call trace accumulated so far. -/
def weatherLand (env : Env) (place : Place) (pre : List ServiceCall) :
    Except JsErr WOut × List ServiceCall :=
  (match env.land place.lat place.lon with
   | .error e => .error e
   | .ok (some l) => .ok (.landReply place l)
   | .ok none => .ok .allFail,
   pre ++ [.land place.lat place.lon])

/-- The weather flow of `app.post("/chat")` (server.js lines 276–340),
up to rendering: geocode the place, run the marine resolver, accept a
marine reading only when wave or wind is non-null, otherwise fall back
to land weather.  `Except.error` marks an exception that reaches the
flow's `catch`.  The second component is the external-call trace. -/
def weatherFlowCore (env : Env) (placeName : String) :
    Except JsErr WOut × List ServiceCall :=
  match env.geocode placeName with
  | .error e => (.error e, [.geo placeName])
  | .ok none => (.ok (.geocodeFail placeName), [.geo placeName])
  | .ok (some place) =>
    let res := getMarineWeatherNear (probeOf env) place.lat place.lon
    let pre := ServiceCall.geo placeName :: res.1.map fun c => ServiceCall.marine c.1 c.2
    match res.2 with
    | .error e => (.error e, pre)
    | .ok (some m) =>
      if m.wave.isSome || m.wind.isSome then (.ok (.marineReply place m), pre)
      else weatherLand env place pre
    | .ok none => weatherLand env place pre

/-- Rendering of the weather flow's outcome, including the reply the
`catch` block produces for an exception (server.js lines 282–339). -/
def renderW (o : Except JsErr WOut) : String :=
  match o with
  | .error _ => "⚠️ Error fetching weather. Try again later."
  | .ok (.geocodeFail n) =>
      "I couldn’t find \"" ++ n ++ "\". Try another port/city."
  | .ok (.marineReply p m) => formatMarineReply p m
  | .ok (.landReply p l) => formatLandReply p l
  | .ok .allFail =>
      "⚠️ Weather service error (marine & land). Please try again with another nearby coastal location."

/-! ## Great-circle distance (server.js lines 159–175) -/

/-- Degrees to radians, `toRadians(d)`. -/
noncomputable def toRadians (d : ℝ) : ℝ := d * Real.pi / 180

/-- Embedding of `greatCircleNm(a, b)`: haversine distance in nautical
miles over the real numbers. -/
noncomputable def greatCircleNm (a b : Place) : ℝ :=
  let R_km : ℝ := 6371
  let dLat := toRadians ((b.lat : ℝ) - (a.lat : ℝ))
  let dLon := toRadians ((b.lon : ℝ) - (a.lon : ℝ))
  let lat1 := toRadians (a.lat : ℝ)
  let lat2 := toRadians (b.lat : ℝ)
  let h := Real.sin (dLat / 2) ^ 2 +
    Real.cos lat1 * Real.cos lat2 * Real.sin (dLon / 2) ^ 2
  let d_km := 2 * R_km * Real.arcsin (min 1 (Real.sqrt h))
  d_km * 0.539957

/-- Modelled from the spec's words (section 4.2 / claim C4), for the
refinement comparison with `greatCircleNm`:
`d_km = 2 · 6371 · asin(min(1, sqrt(sin²(Δlat/2) + cos(lat1)·cos(lat2)·sin²(Δlon/2))))`,
`d_nm = d_km · 0.539957`, with latitudes/longitudes in radians. -/
noncomputable def haversineNmSpec (a b : Place) : ℝ :=
  let lat1 := toRadians (a.lat : ℝ)
  let lat2 := toRadians (b.lat : ℝ)
  let dlat := lat2 - lat1
  let dlon := toRadians (b.lon : ℝ) - toRadians (a.lon : ℝ)
  let A := Real.sin (dlat / 2) ^ 2 +
    Real.cos lat1 * Real.cos lat2 * Real.sin (dlon / 2) ^ 2
  (2 * 6371 * Real.arcsin (min 1 (Real.sqrt A))) * 0.539957

/-- Structured outcome of the distance flow. -/
inductive DOut where
  | errCaught
  | notFound (name : String)
  | dist (pf pt : Place) (nm : ℤ)

/-- The distance flow of `app.post("/chat")` (server.js lines 234–272),
up to rendering: geocode both names (`Promise.all` — a rejection of
either is caught as a service error before the null checks), report the
first name that geocoded to null, else round the haversine distance.
Both geocode calls are always issued. -/
noncomputable def distanceFlowCore (env : Env) (f t : String) :
    DOut × List ServiceCall :=
  (match env.geocode f, env.geocode t with
   | .error _, _ => .errCaught
   | _, .error _ => .errCaught
   | .ok none, _ => .notFound f
   | .ok (some _), .ok none => .notFound t
   | .ok (some pf), .ok (some pt) => .dist pf pt (round (greatCircleNm pf pt)),
   [.geo f, .geo t])

/-- Rendering of the distance flow's outcome (server.js lines 245–271). -/
def renderD (o : DOut) : String :=
  match o with
  | .errCaught => "⚠️ Distance service error. Please try again."
  | .notFound n =>
      "I couldn't find \"" ++ n ++ "\". Try another port/city name."
  | .dist pf pt nm =>
      "📏 Great-circle distance:\n" ++
      "• " ++ pf.name ++ ", " ++ pf.country ++ " (" ++ toFixed3 pf.lat ++
      ", " ++ toFixed3 pf.lon ++ ")\n" ++
      "→ " ++ pt.name ++ ", " ++ pt.country ++ " (" ++ toFixed3 pt.lat ++
      ", " ++ toFixed3 pt.lon ++ ")\n" ++
      "= **" ++ intStr nm ++ " nautical miles** (approx., rhumb lines not included)."

/-- The JSON response `res.json({ reply })`; express sends it with
status 200 unless a status was set explicitly. -/
structure HttpResponse where
  status : ℕ
  reply : String

/-- Model of JavaScript `String.prototype.trim`: drop leading and
trailing whitespace. -/
def jsTrim (s : String) : String :=
  ⟨((s.data.dropWhile Char.isWhitespace).reverse.dropWhile Char.isWhitespace).reverse⟩

/-- Embedding of the `app.post("/chat")` handler (server.js lines
229–346), parametrised by the environment and by the two regex
matchers: `dm` models `message.match(distance-regex)` returning the two
captures, `wm` models `message.match(weather-regex)` returning the one
capture.  The second component is the external-call trace. -/
noncomputable def chatHandlerCore (env : Env)
    (dm : String → Option (String × String)) (wm : String → Option String)
    (body : Option String) : HttpResponse × List ServiceCall :=
  let message := jsTrim (body.getD "")
  if message = "" then (⟨200, "Please type a question."⟩, [])
  else
    match dm message with
    | some ft =>
      let r := distanceFlowCore env (jsTrim ft.1) (jsTrim ft.2)
      (⟨200, renderD r.1⟩, r.2)
    | none =>
      match wm message with
      | some p =>
        let r := weatherFlowCore env (jsTrim p)
        (⟨200, renderW r.1⟩, r.2)
      | none =>
        (⟨200, "You asked: \"" ++ message ++ "\". This is a test response from backend."⟩, [])

/-- Extract the coordinates of the `getLandWeather` invocations from a
call trace. -/
def landCallsOf (calls : List ServiceCall) : List (ℚ × ℚ) :=
  calls.filterMap fun c =>
    match c with
    | .land la lo => some (la, lo)
    | _ => none

/-! ## Concrete service behaviours used by witnesses -/

instance {ε α : Type} [DecidableEq ε] [DecidableEq α] : DecidableEq (Except ε α) := by
  intro a b
  cases a <;> cases b
  case error.error e f =>
    exact if h : e = f then .isTrue (by rw [h]) else .isFalse (by simp [h])
  case ok.ok x y =>
    exact if h : x = y then .isTrue (by rw [h]) else .isFalse (by simp [h])
  all_goals exact .isFalse (by simp)

/-- A concrete inland place for witnesses. -/
def placeKC : Place := ⟨"Kansas City", "United States", 39, -94⟩

/-- Environment: geocoding succeeds, every marine probe gets an HTTP
client error (the land-point rejection), land weather succeeds. -/
def envAllMarineFail : Env :=
  { geocode := fun _ => .ok (some placeKC)
    marineHttp := fun _ _ => .resp false (.ok ⟨none⟩)
    land := fun _ _ => .ok (some ⟨20, 10, 180, "2025-01-01T00:00"⟩) }

/-- Marine response carrying one hourly timestamp but no wave-height
and no wind-speed series. -/
def bothNullResp : FetchOutcome :=
  .resp true (.ok ⟨some ⟨some ["2025-01-01T00:00"], none, none, none⟩⟩)

/-- A marine response whose first hourly sample has wave, wind and
direction values. -/
def goodMarineResp : FetchOutcome :=
  .resp true (.ok ⟨some ⟨some ["2025-01-01T00:00"],
    some [some 2], some [some 5], some [some 180]⟩⟩)

/-- A concrete coastal place for witnesses. -/
def placeRot : Place := ⟨"Rotterdam", "Netherlands", 52, 4⟩

/-- Environment: geocoding succeeds and the very first marine probe
returns a full reading. -/
def envMarineOk : Env :=
  { geocode := fun _ => .ok (some placeRot)
    marineHttp := fun _ _ => goodMarineResp
    land := fun _ _ => .ok none }

/-- The reading the resolver yields under `envMarineOk` at Rotterdam:
the first candidate probed is the un-offset point (52 + 0, 4 + 0). -/
def mRot : MarineReading := ⟨"2025-01-01T00:00", some 2, some 5, some 180, 52 + 0, 4 + 0⟩

/-- An environment whose services all report nothing-found. -/
def envInert : Env :=
  ⟨fun _ => .ok none, fun _ _ => .resp false (.ok ⟨none⟩), fun _ _ => .ok none⟩

/-- An environment that geocodes every name to itself at (0, 0). -/
def envGeoOk : Env :=
  ⟨fun n => .ok (some ⟨n, "", 0, 0⟩), fun _ _ => .resp false (.ok ⟨none⟩),
   fun _ _ => .ok none⟩

instance (s : String) : Decidable (warnFree s) :=
  inferInstanceAs (Decidable ('⚠' ∉ s.data))

/-- A reading whose first hourly wave height exceeds three metres. -/
def mStorm : MarineReading := ⟨"2025-01-01T06:00", some 4, some 10, some 200, 52, 4⟩

/-! ## Resolver lemmas and claim theorems -/

/-- For a probe that never throws, the probe loop probes exactly the
candidates up to and including the first hit, and returns the first
non-null probe result of the list. -/
theorem probeLoop_lift (probe : ℚ → ℚ → Option MarineReading) (l : List (ℚ × ℚ)) :
    probeLoop (liftProbe probe) l
      = (l.takeWhile (fun c => (probe c.1 c.2).isNone)
          ++ (l.dropWhile (fun c => (probe c.1 c.2).isNone)).take 1,
         .ok (l.findSome? fun c => probe c.1 c.2)) := by
  induction l with
  | nil => simp [probeLoop]
  | cons c rest ih =>
    cases h : probe c.1 c.2 with
    | none =>
      simp [probeLoop, liftProbe, h, List.findSome?_cons, List.takeWhile_cons,
        List.dropWhile_cons, ih]
    | some r =>
      simp [probeLoop, liftProbe, h, List.findSome?_cons, List.takeWhile_cons,
        List.dropWhile_cons]

/-- If every probe in the list reports nothing-found, the loop probes
the whole list and reports nothing-found. -/
theorem probeLoop_all_none (probe : ℚ → ℚ → Except JsErr (Option MarineReading))
    (l : List (ℚ × ℚ)) (h : ∀ c ∈ l, probe c.1 c.2 = .ok none) :
    probeLoop probe l = (l, .ok none) := by
  induction l with
  | nil => simp [probeLoop]
  | cons c rest ih =>
    have hc := h c (List.mem_cons_self c rest)
    simp [probeLoop, hc, ih fun d hd => h d (List.mem_cons_of_mem _ hd)]

/-- The first candidate of the search grid is the un-offset point. -/
theorem candidates_head (lat lon : ℚ) :
    (candidates lat lon).head? = some (lat, lon) := by
  simp [candidates, offsets]

/-- C1: for every target coordinate and every (non-throwing) behaviour
of the marine probe, the resolver probes candidates in exactly the
nested order of `candidates` (offset list `[0, +0.25, -0.25, +0.5,
-0.5, +0.75, -0.75, +1, -1]`, latitude outer, longitude inner, so the
un-offset point comes first), returns the first non-null probe result,
and probes nothing past the first hit: its probe trace is the prefix of
the candidate list up to and including the first successful one. -/
theorem marine_resolver_probes_in_documented_order
    (probe : ℚ → ℚ → Option MarineReading) (lat lon : ℚ) :
    (candidates lat lon).head? = some (lat, lon)
  ∧ (getMarineWeatherNear (liftProbe probe) lat lon).2
      = .ok ((candidates lat lon).findSome? fun c => probe c.1 c.2)
  ∧ (getMarineWeatherNear (liftProbe probe) lat lon).1
      = (candidates lat lon).takeWhile (fun c => (probe c.1 c.2).isNone)
        ++ ((candidates lat lon).dropWhile (fun c => (probe c.1 c.2).isNone)).take 1 := by
  refine ⟨candidates_head lat lon, ?_, ?_⟩ <;>
    simp [getMarineWeatherNear, probeLoop_lift]

/-- Marine probe calls contribute no land calls to a trace. -/
theorem landCallsOf_marine_map (l : List (ℚ × ℚ)) :
    landCallsOf (l.map fun c => ServiceCall.marine c.1 c.2) = [] := by
  simp [landCallsOf, List.filterMap_map, Function.comp]

/-- C3: whenever geocoding yields a place and all 81 probes of the
resolver report nothing-found, the weather flow calls `getLandWeather`
exactly once, with the original geocoded coordinate, un-offset. -/
theorem land_fallback_uses_original_coordinate (env : Env) (placeName : String)
    (place : Place)
    (hgeo : env.geocode placeName = .ok (some place))
    (hall : ∀ c ∈ candidates place.lat place.lon, probeOf env c.1 c.2 = .ok none) :
    landCallsOf (weatherFlowCore env placeName).2 = [(place.lat, place.lon)] := by
  have hres : getMarineWeatherNear (probeOf env) place.lat place.lon
      = (candidates place.lat place.lon, .ok none) :=
    probeLoop_all_none _ _ hall
  simp [weatherFlowCore, hgeo, hres, weatherLand, landCallsOf,
    List.filterMap_append, List.filterMap_cons]

/-- The land-fallback tail never produces a marine reply. -/
theorem weatherLand_no_marine (env : Env) (place : Place) (pre : List ServiceCall)
    (p : Place) (m : MarineReading) :
    (weatherLand env place pre).1 ≠ .ok (.marineReply p m) := by
  unfold weatherLand
  cases h : env.land place.lat place.lon with
  | error e => simp
  | ok o => cases o <;> simp

/-- C2 (amended): a marine reply produced by the weather flow always
carries a non-null wave height or a non-null wind speed — the guard
`marine && (marine.wave != null || marine.wind != null)` enforces the
invariant at the flow, not inside `tryMarine`. -/
theorem marine_reply_has_wave_or_wind (env : Env) (placeName : String)
    (p : Place) (m : MarineReading)
    (h : (weatherFlowCore env placeName).1 = .ok (.marineReply p m)) :
    m.wave.isSome = true ∨ m.wind.isSome = true := by
  simp only [weatherFlowCore] at h
  split at h
  · simp at h
  · simp at h
  · split at h
    · simp at h
    · split at h
      · rename_i hc
        simp only [Except.ok.injEq, WOut.marineReply.injEq] at h
        obtain ⟨rfl, rfl⟩ := h
        simpa [Bool.or_eq_true] using hc
      · exact absurd h (weatherLand_no_marine _ _ _ _ _)
    · exact absurd h (weatherLand_no_marine _ _ _ _ _)

/-- C3 witness: with geocoding returning Kansas City and all 81 marine
probes reporting nothing-found, the land service is called exactly once
at the original coordinate (39, −94). -/
theorem land_fallback_uses_original_coordinate_witness :
    envAllMarineFail.geocode "Kansas City" = .ok (some placeKC)
  ∧ probeOf envAllMarineFail placeKC.lat placeKC.lon = .ok none
  ∧ landCallsOf (weatherFlowCore envAllMarineFail "Kansas City").2 = [(39, -94)] :=
  ⟨rfl, rfl,
    land_fallback_uses_original_coordinate envAllMarineFail "Kansas City" placeKC
      rfl fun _ _ => rfl⟩

/-- C2 counterexample: `tryMarine` can return a `MarineReading` whose
`wave` and `wind` are both null — the response above has an hourly
timestamp, so the guard `!h.time?.length` passes, and both series read
as `?? null`.  The claimed invariant fails at `tryMarine`. -/
theorem tryMarine_can_return_reading_without_wave_or_wind :
    tryMarine bothNullResp 39 (-94)
      = .ok (some ⟨"2025-01-01T00:00", none, none, none, 39, -94⟩) := rfl

/-- C2 witness (amended form): under `envMarineOk` the weather flow
produces a marine reply, and that reading has wave or wind non-null. -/
theorem marine_reply_has_wave_or_wind_witness :
    (weatherFlowCore envMarineOk "Rotterdam").1 = .ok (.marineReply placeRot mRot)
  ∧ (mRot.wave.isSome = true ∨ mRot.wind.isSome = true) :=
  ⟨by rfl, marine_reply_has_wave_or_wind envMarineOk "Rotterdam" placeRot mRot (by rfl)⟩

/-- C6 counterexample: a rejected `fetch` promise is not swallowed by
`tryMarine`; the exception propagates past its boundary (it is only
caught by the `/chat` handler's try/catch). -/
theorem tryMarine_propagates_fetch_rejection :
    tryMarine (.throw ⟨"network failure"⟩) 52 4 = .error ⟨"network failure"⟩ := rfl

/-- C6 (amended): `tryMarine` swallows HTTP non-success (returning null
without touching the body) and missing/empty hourly data, and never
throws when the fetch resolves and the body parses (the result is then
always `.ok`); but a fetch rejection or a `r.json()` parse failure
propagates as a thrown exception. -/
theorem tryMarine_error_boundary (lat lon : ℚ) (e : JsErr)
    (body : Except JsErr MarineBody) (data : MarineBody)
    (w ws wd : Option (List (Option ℚ))) :
    tryMarine (.throw e) lat lon = .error e
  ∧ tryMarine (.resp false body) lat lon = .ok none
  ∧ tryMarine (.resp true (.error e)) lat lon = .error e
  ∧ tryMarine (.resp true (.ok ⟨none⟩)) lat lon = .ok none
  ∧ tryMarine (.resp true (.ok ⟨some ⟨none, w, ws, wd⟩⟩)) lat lon = .ok none
  ∧ tryMarine (.resp true (.ok ⟨some ⟨some [], w, ws, wd⟩⟩)) lat lon = .ok none
  ∧ ∃ o, tryMarine (.resp true (.ok data)) lat lon = .ok o := by
  refine ⟨rfl, rfl, rfl, rfl, rfl, rfl, ?_⟩
  rcases data with ⟨ho⟩
  cases ho with
  | none => exact ⟨none, rfl⟩
  | some h' =>
    rcases h' with ⟨ht, hw, hs, hd⟩
    cases ht with
    | none => exact ⟨none, rfl⟩
    | some ts =>
      cases ts with
      | nil => exact ⟨none, rfl⟩
      | cons t ts' => exact ⟨_, rfl⟩

/-! ## Router-level claims -/

/-- C7: for every environment behaviour (including throwing services),
every matcher behaviour and every request body, the chat handler
responds with HTTP 200 and a reply string; every failure is consumed by
a branch or a try/catch reply inside the flows. -/
theorem chat_always_replies_200 (env : Env)
    (dm : String → Option (String × String)) (wm : String → Option String)
    (body : Option String) :
    (chatHandlerCore env dm wm body).1.status = 200 := by
  simp only [chatHandlerCore]
  split
  · rfl
  · split
    · rfl
    · split
      · rfl
      · rfl

/-- C10: a body whose message is absent, empty or whitespace-only makes
the handler reply "Please type a question." at once, with an empty
external-call trace and a result independent of the environment and of
both intent matchers. -/
theorem empty_message_short_circuits (env : Env)
    (dm : String → Option (String × String)) (wm : String → Option String)
    (body : Option String) (h : jsTrim (body.getD "") = "") :
    chatHandlerCore env dm wm body = (⟨200, "Please type a question."⟩, []) := by
  simp [chatHandlerCore, h]

/-- C10 witness: a whitespace-only message short-circuits under a
concrete environment and concrete matchers. -/
theorem empty_message_short_circuits_witness :
    jsTrim ((some "   " : Option String).getD "") = ""
  ∧ chatHandlerCore envInert (fun _ => none) (fun _ => none) (some "   ")
      = (⟨200, "Please type a question."⟩, []) :=
  ⟨by decide,
    empty_message_short_circuits envInert (fun _ => none) (fun _ => none)
      (some "   ") (by decide)⟩

/-! ## Distance claims -/

/-- The implemented haversine equals the spec's formula: the two differ
only in whether the coordinate difference is taken before or after the
degree-to-radian conversion, which is linear. -/
theorem greatCircleNm_eq_spec (a b : Place) :
    greatCircleNm a b = haversineNmSpec a b := by
  have h1 : ((b.lat : ℝ) - (a.lat : ℝ)) * Real.pi / 180
      = (b.lat : ℝ) * Real.pi / 180 - (a.lat : ℝ) * Real.pi / 180 := by ring
  have h2 : ((b.lon : ℝ) - (a.lon : ℝ)) * Real.pi / 180
      = (b.lon : ℝ) * Real.pi / 180 - (a.lon : ℝ) * Real.pi / 180 := by ring
  simp only [greatCircleNm, haversineNmSpec, toRadians, h1, h2]

/-- C4: when both names geocode, the numeric value of the distance
reply is the haversine great-circle distance of the two resolved
coordinates — per the spec formula — rounded to the nearest integer
(`Math.round`, i.e. ⌊x + 1/2⌋). -/
theorem distance_reply_is_rounded_haversine (env : Env) (f t : String)
    (pf pt : Place)
    (h1 : env.geocode f = .ok (some pf)) (h2 : env.geocode t = .ok (some pt)) :
    (distanceFlowCore env f t).1 = .dist pf pt (round (haversineNmSpec pf pt)) := by
  simp [distanceFlowCore, h1, h2, greatCircleNm_eq_spec]

/-- C4 witness: with both names geocoding, the distance flow yields the
rounded spec haversine value. -/
theorem distance_reply_is_rounded_haversine_witness :
    envGeoOk.geocode "Mumbai" = .ok (some ⟨"Mumbai", "", 0, 0⟩)
  ∧ envGeoOk.geocode "Singapore" = .ok (some ⟨"Singapore", "", 0, 0⟩)
  ∧ (distanceFlowCore envGeoOk "Mumbai" "Singapore").1
      = .dist ⟨"Mumbai", "", 0, 0⟩ ⟨"Singapore", "", 0, 0⟩
          (round (haversineNmSpec ⟨"Mumbai", "", 0, 0⟩ ⟨"Singapore", "", 0, 0⟩)) :=
  ⟨rfl, rfl,
    distance_reply_is_rounded_haversine envGeoOk "Mumbai" "Singapore" _ _ rfl rfl⟩

/-- C8: the distance calculator is symmetric in its two points. -/
theorem greatCircleNm_symm (a b : Place) : greatCircleNm a b = greatCircleNm b a := by
  have key : ∀ x : ℝ, Real.sin (-x) ^ 2 = Real.sin x ^ 2 := fun x => by
    rw [Real.sin_neg]; ring
  have e1 : ((a.lat : ℝ) - (b.lat : ℝ)) * Real.pi / 180 / 2
      = -(((b.lat : ℝ) - (a.lat : ℝ)) * Real.pi / 180 / 2) := by ring
  have e2 : ((a.lon : ℝ) - (b.lon : ℝ)) * Real.pi / 180 / 2
      = -(((b.lon : ℝ) - (a.lon : ℝ)) * Real.pi / 180 / 2) := by ring
  simp only [greatCircleNm, toRadians]
  rw [e1, e2, key, key]
  ring_nf

/-- C9: the distance from a point to itself is zero. -/
theorem greatCircleNm_self (a : Place) : greatCircleNm a a = 0 := by
  have h0 : ((a.lat : ℝ) - (a.lat : ℝ)) * Real.pi / 180 / 2 = 0 := by ring
  have h0' : ((a.lon : ℝ) - (a.lon : ℝ)) * Real.pi / 180 / 2 = 0 := by ring
  simp only [greatCircleNm, toRadians]
  rw [h0, h0']
  simp [Real.sin_zero, Real.sqrt_zero, Real.arcsin_zero]

/-! ## Storm-warning claim -/

/-- Digit characters are never the warning sign. -/
theorem decDigit_ne_warn (n : Nat) : decDigit n ≠ '⚠' := by
  unfold decDigit
  split <;> decide

/-- Rendered digit strings never contain the warning sign. -/
theorem natToDigits_no_warn (n : Nat) : '⚠' ∉ natToDigits n := by
  induction n using Nat.strong_induction_on with
  | _ n ih =>
    rw [natToDigits]
    split
    · intro hmem
      simp at hmem
      exact decDigit_ne_warn n hmem.symm
    · intro hmem
      rcases List.mem_append.1 hmem with h | h
      · exact ih (n / 10) (Nat.div_lt_self (by omega) (by omega)) h
      · simp at h
        exact decDigit_ne_warn (n % 10) h.symm

/-- Concatenation preserves freedom from the warning sign. -/
theorem warnFree_append {s t : String} (hs : warnFree s) (ht : warnFree t) :
    warnFree (s ++ t) := by
  unfold warnFree at *
  rw [String.data_append]
  intro hmem
  rcases List.mem_append.1 hmem with h | h
  · exact hs h
  · exact ht h

/-- Natural-number rendering is warning-sign-free. -/
theorem warnFree_natStr (n : Nat) : warnFree (natStr n) := natToDigits_no_warn n

/-- Integer rendering is warning-sign-free. -/
theorem warnFree_intStr (i : ℤ) : warnFree (intStr i) := by
  unfold intStr
  split
  · exact warnFree_append (by decide) (warnFree_natStr _)
  · exact warnFree_natStr _

/-- Rational rendering is warning-sign-free. -/
theorem warnFree_ratStr (q : ℚ) : warnFree (ratStr q) := by
  unfold ratStr
  split
  · exact warnFree_intStr _
  · exact warnFree_append (warnFree_append (warnFree_intStr _) (by decide))
      (warnFree_natStr _)

/-- `toFixed(2)` rendering is warning-sign-free. -/
theorem warnFree_toFixed2 (q : ℚ) : warnFree (toFixed2 q) := warnFree_ratStr _

/-- When the free-text fields are free of the warning sign, so is the
whole marine reply body: all other characters come from fixed literals
or rendered numbers. -/
theorem warnFree_marineReplyBody (p : Place) (m : MarineReading)
    (h1 : warnFree p.name) (h2 : warnFree p.country) (h3 : warnFree m.time) :
    warnFree (marineReplyBody p m) := by
  obtain ⟨mt, mw, mwind, mdir, mla, mlo⟩ := m
  unfold marineReplyBody
  cases mw <;> cases mwind <;> cases mdir <;>
    dsimp only <;>
    repeat' apply warnFree_append
  all_goals first
    | exact h1
    | exact h2
    | exact h3
    | exact warnFree_ratStr _
    | decide

/-- C5: for every accepted marine reading, the formatted marine reply
contains the storm-warning line exactly when the reading's wave height
is a number strictly greater than 3 metres; the hypotheses record that
the request's free-text fields (place name, country, timestamp) do not
themselves contain the warning sign that opens the storm line. -/
theorem storm_warning_iff_high_wave (p : Place) (m : MarineReading)
    (h1 : warnFree p.name) (h2 : warnFree p.country) (h3 : warnFree m.time) :
    occursIn stormLine (formatMarineReply p m) ↔ ∃ w, m.wave = some w ∧ 3 < w := by
  constructor
  · intro hocc
    have hw : '⚠' ∈ (formatMarineReply p m).data := by
      obtain ⟨l, r, hda⟩ := hocc
      rw [hda]
      have hwm : '⚠' ∈ stormLine.data := by decide
      simp [List.mem_append, hwm]
    by_cases hc : stormCond m
    · unfold stormCond at hc
      cases hwave : m.wave with
      | none => rw [hwave] at hc; simp at hc
      | some w =>
        rw [hwave] at hc
        exact ⟨w, rfl, by simpa using hc⟩
    · exfalso
      have hbody : warnFree (marineReplyBody p m) :=
        warnFree_marineReplyBody p m h1 h2 h3
      have heq : formatMarineReply p m = marineReplyBody p m := by
        simp [formatMarineReply, hc]
      rw [heq] at hw
      exact hbody hw
  · rintro ⟨w, hwave, hgt⟩
    have hc : stormCond m = true := by simp [stormCond, hwave, hgt]
    refine ⟨(marineReplyBody p m).data, [], ?_⟩
    simp [formatMarineReply, hc, String.data_append]

/-- C5 witness: at Rotterdam with a 4 m wave reading, the premises hold
and the reply carries the storm line exactly when the wave exceeds 3 m. -/
theorem storm_warning_iff_high_wave_witness :
    warnFree placeRot.name ∧ warnFree placeRot.country ∧ warnFree mStorm.time
  ∧ (occursIn stormLine (formatMarineReply placeRot mStorm)
      ↔ ∃ w, mStorm.wave = some w ∧ 3 < w) :=
  ⟨by decide, by decide, by decide,
    storm_warning_iff_high_wave placeRot mStorm (by decide) (by decide) (by decide)⟩

